import Mathlib

set_option autoImplicit false

/-
Verification development for the LowImpactProfiler repository.

The model below is a shallow embedding of the canonical `Checkpoint` class
(the variant with `getTimeResolutionStr`, `dump(ostream&, ...)`,
`dumpThroughput` and `creationCycles_`): pthread thread ids are modelled as
`Nat`, the `std::map<pthread_t, ThreadCheckpointInfo>` as an association
list, and `std::vector<pthread_t>` as its raw reserved storage (a list whose
length is the reserved capacity) together with the vector size, which only
`reserve` ever touches in the source (so it stays `0`; the code writes the
vector exclusively through unchecked `operator[]`).

Clock readings (`getCycles()`, microseconds since the epoch as `uint64_t`)
are supplied as explicit `Nat` parameters.  The `ThreadCheckpointInfo`
constructor performs one `getCycles()` call per checkpoint slot plus one for
`creationCycles_`; all these construction-time readings are modelled by the
single parameter `now` of `ThreadCheckpointInfo.construct` (the most
favourable clock behaviour: the construction readings coincide).  `uint64_t`
subtraction coincides with truncated `Nat` subtraction for the monotone
clock inputs used in the theorems below, and the iteration/cycle
accumulators never approach `2^64` on any input considered, so `Nat`
arithmetic is used throughout.
-/

namespace LowImpactProfiler

/-- `Checkpoint::MAX_CHECKPOINT` -/
abbrev MAX_CHECKPOINT : Nat := 10

/-- `Checkpoint::DEFAULT_MAX_THREADS` -/
abbrev DEFAULT_MAX_THREADS : Nat := 32

/-- `Checkpoint::CheckpointInfo_s`: one counter bundle for one checkpoint id
on one thread. -/
structure CheckpointInfo where
  iterations_ : Nat
  totalCycles_ : Nat
  previousCycles_ : Nat
deriving Repr, DecidableEq

/-- The `CheckpointInfo_s()` default constructor:
`iterations_(0), totalCycles_(0), previousCycles_(getCycles())`, with the
`getCycles()` reading passed in as `now`. -/
def CheckpointInfo.construct (now : Nat) : CheckpointInfo :=
  { iterations_ := 0, totalCycles_ := 0, previousCycles_ := now }

/-- The all-zero `CheckpointInfo` value: default value for out-of-range
reads in the model and the initial accumulator of `dump`'s local
`totalCpAvg` array (whose entries are default-constructed with
`iterations_` and `totalCycles_` zero; their construction-time
`previousCycles_` readings never reach any printed value and are modelled
as `0`). -/
def cpZero : CheckpointInfo :=
  { iterations_ := 0, totalCycles_ := 0, previousCycles_ := 0 }

/-- `CheckpointInfo_s::operator+=`: field-wise addition (the `this == cpRhs`
self-aliasing guard is never triggered at its single call site in `dump`,
where the left side is a local accumulator and the right side a slot of a
registered thread record). -/
def CheckpointInfo.addAssign (lhs rhs : CheckpointInfo) : CheckpointInfo :=
  { iterations_ := lhs.iterations_ + rhs.iterations_
    totalCycles_ := lhs.totalCycles_ + rhs.totalCycles_
    previousCycles_ := lhs.previousCycles_ + rhs.previousCycles_ }

/-- `Checkpoint::ThreadCheckpointInfo_s`: the per-thread record. -/
structure ThreadCheckpointInfo where
  checkpoints_ : List CheckpointInfo
  creationCycles_ : Nat
  lastCheckpointHit_ : Nat
deriving Repr, DecidableEq

/-- The `ThreadCheckpointInfo_s()` default constructor: ten
default-constructed slots, `creationCycles_(getCycles())`,
`lastCheckpointHit_(0)`; all construction-time clock readings are modelled
by the single value `now`. -/
def ThreadCheckpointInfo.construct (now : Nat) : ThreadCheckpointInfo :=
  { checkpoints_ := List.replicate MAX_CHECKPOINT (CheckpointInfo.construct now)
    creationCycles_ := now
    lastCheckpointHit_ := 0 }

/-- Reading `checkpoints_[i]` (the source never bounds-checks; all uses in
the theorems below stay below `MAX_CHECKPOINT`). -/
def slotAt (t : ThreadCheckpointInfo) (i : Nat) : CheckpointInfo :=
  t.checkpoints_.getD i cpZero

/-- The body of `Checkpoint::checkpoint(int)` after thread-record
resolution, with `now` the reading returned by its `getCycles()` call.
Statement order is the source's:
`previousCp` is resolved from the old `lastCheckpointHit_`, then
`lastCheckpointHit_ = checkpoint`, then `++(currentCp->iterations_)`, then
`currentCp->previousCycles_ = getCycles()`, and only then
`currentCp->totalCycles_ += currentCp->previousCycles_ -
previousCp->previousCycles_` — so when `cp = lastCheckpointHit_` the two
pointers alias and the subtraction reads the timestamp just written. -/
def checkpointUpdate (tc : ThreadCheckpointInfo) (cp : Nat) (now : Nat) : ThreadCheckpointInfo :=
  let prevIdx := tc.lastCheckpointHit_
  let cur := slotAt tc cp
  let cur1 : CheckpointInfo :=
    { cur with iterations_ := cur.iterations_ + 1, previousCycles_ := now }
  let cps1 := tc.checkpoints_.set cp cur1
  let prev := cps1.getD prevIdx cpZero
  let cur2 : CheckpointInfo :=
    { cur1 with totalCycles_ := cur1.totalCycles_ + (now - prev.previousCycles_) }
  { tc with checkpoints_ := cps1.set cp cur2, lastCheckpointHit_ := cp }

/-- A single-thread run: fold `checkpointUpdate` over a list of
`(checkpoint id, clock reading)` pairs. -/
def runThread (tc : ThreadCheckpointInfo) (calls : List (Nat × Nat)) : ThreadCheckpointInfo :=
  calls.foldl (fun t c => checkpointUpdate t c.1 c.2) tc

/-- The sum of `totalCycles_` over all slots of a thread record (the total
elapsed time the record accounts for). -/
def sumTotalCycles (tc : ThreadCheckpointInfo) : Nat :=
  tc.checkpoints_.foldl (fun a c => a + c.totalCycles_) 0

/-- Lookup in the association list modelling
`std::map<pthread_t, ThreadCheckpointInfo>` (`find`). -/
def assocLookup (m : List (Nat × ThreadCheckpointInfo)) (k : Nat) : Option ThreadCheckpointInfo :=
  match m with
  | [] => none
  | (k1, v1) :: rest => if k1 = k then some v1 else assocLookup rest k

/-- The map write `threadCpInfoMap_[k] = v`: `std::map::operator[]` followed
by assignment replaces the value when the key is present and inserts the
pair otherwise (`std::map` keeps entries ordered by key; this model keeps
first-insertion order instead, which none of the verified properties
depend on — `dump` iterates `threadIdVector_`, never the map). -/
def assocInsert (m : List (Nat × ThreadCheckpointInfo)) (k : Nat)
    (v : ThreadCheckpointInfo) : List (Nat × ThreadCheckpointInfo) :=
  match m with
  | [] => [(k, v)]
  | (k1, v1) :: rest => if k1 = k then (k, v) :: rest else (k1, v1) :: assocInsert rest k v

/-- The mutable state of one `Checkpoint` object.
`threadIdVectorStorage_` is the raw storage reserved by
`threadIdVector_.reserve(...)` (its length is the reserved capacity) and
`threadIdVectorSize_` is `threadIdVector_.size()`: the source only ever
calls `reserve`, never `push_back`/`resize`, so the size stays `0` and
every `threadIdVector_[i]` access is past the vector's end.  A
`List.set` write at an index beyond the reserved storage is a no-op in the
model (in the program it writes unallocated heap memory). -/
structure CheckpointState where
  threadCpInfoMap_ : List (Nat × ThreadCheckpointInfo)
  threadIdVectorStorage_ : List Nat
  threadIdVectorSize_ : Nat
  threadIdCounter_ : Nat
  numThreads_ : Nat
  isActive_ : Bool
deriving Repr, DecidableEq

/-- The `Checkpoint(uint32_t numThreads)` constructor: reserves
`numThreads` vector slots when `numThreads > 1` and one slot otherwise
(uninitialised reserved storage is modelled as zeros), with
`threadIdCounter_(0)` and `isActive_(true)`. -/
def Checkpoint.mkState (numThreads : Nat) : CheckpointState :=
  { threadCpInfoMap_ := []
    threadIdVectorStorage_ := List.replicate (if numThreads > 1 then numThreads else 1) 0
    threadIdVectorSize_ := 0
    threadIdCounter_ := 0
    numThreads_ := numThreads
    isActive_ := true }

/-- The body of the slow path of `Checkpoint::getThreadCpInfo()` executed
between `pthread_rwlock_wrlock` and the matching unlock:
`threadIdVector_[threadIdCounter_++] = threadId;
threadCpInfoMap_[threadId] = ThreadCheckpointInfo();` — with no re-check of
the map.  `tCreate` is the clock reading of the record construction. -/
def slowPathInsert (s : CheckpointState) (tid : Nat) (tCreate : Nat) : CheckpointState :=
  { s with
    threadIdVectorStorage_ := s.threadIdVectorStorage_.set s.threadIdCounter_ tid
    threadIdCounter_ := s.threadIdCounter_ + 1
    threadCpInfoMap_ := assocInsert s.threadCpInfoMap_ tid (ThreadCheckpointInfo.construct tCreate) }

/-- `Checkpoint::getThreadCpInfo()` as a state transformer returning the
map key whose record the returned pointer refers to.  In the
`numThreads_ == 0` branch every caller is attributed to key `0` and the
record is created only when the map is empty; otherwise the calling
thread's id is looked up and the slow path inserts unconditionally on a
miss. -/
def getThreadCpInfoStep (s : CheckpointState) (tid : Nat) (tCreate : Nat) :
    CheckpointState × Nat :=
  if s.numThreads_ = 0 then
    if s.threadCpInfoMap_.isEmpty then
      ({ s with
          threadCpInfoMap_ := assocInsert s.threadCpInfoMap_ 0 (ThreadCheckpointInfo.construct tCreate)
          threadIdVectorStorage_ := s.threadIdVectorStorage_.set s.threadIdCounter_ 0
          threadIdCounter_ := s.threadIdCounter_ + 1 }, 0)
    else (s, 0)
  else
    match assocLookup s.threadCpInfoMap_ tid with
    | some _ => (s, tid)
    | none => (slowPathInsert s tid tCreate, tid)

/-- `Checkpoint::checkpoint(int)`: return immediately when inactive,
otherwise resolve the calling thread's record and run the counter update
through the returned pointer.  `tid` is `pthread_self()`, `tCreate` the
clock reading consumed if a record is constructed, `tNow` the reading of
the `getCycles()` call in the update step.  (Resolution always leaves a
record at the returned key; the `none` branch is unreachable.) -/
def checkpointOp (s : CheckpointState) (tid : Nat) (cp : Nat) (tCreate tNow : Nat) :
    CheckpointState :=
  if s.isActive_ = false then s
  else
    let res := getThreadCpInfoStep s tid tCreate
    match assocLookup res.1.threadCpInfoMap_ res.2 with
    | none => res.1
    | some tc =>
      { res.1 with
        threadCpInfoMap_ := assocInsert res.1.threadCpInfoMap_ res.2 (checkpointUpdate tc cp tNow) }

/-- One `checkpoint` call: calling thread id, checkpoint id, and the two
clock readings the call may consume. -/
structure Call where
  tid : Nat
  cp : Nat
  tCreate : Nat
  tNow : Nat
deriving Repr, DecidableEq

/-- Fold a sequence of `checkpoint` calls over a registry state. -/
def runCalls (s : CheckpointState) (calls : List Call) : CheckpointState :=
  calls.foldl (fun st c => checkpointOp st c.tid c.cp c.tCreate c.tNow) s

/-- The static singleton state: `Checkpoint::instance_` and
`Checkpoint::useLocking_`. -/
structure GlobalState where
  instance_ : Option CheckpointState
  useLocking_ : Bool
deriving Repr, DecidableEq

/-- `Checkpoint::initialize(numThreads, useLocking)`: assigns
`useLocking_` first, unconditionally, then allocates the singleton only if
`instance_ == 0`. -/
def initializeOp (g : GlobalState) (numThreads : Nat) (useLocking : Bool) : GlobalState :=
  let g1 : GlobalState := { g with useLocking_ := useLocking }
  if g1.instance_.isNone then
    { g1 with instance_ := some (Checkpoint.mkState numThreads) }
  else g1

/-- `Checkpoint::instance()`: lazily calls
`initialize()` (with the default arguments `DEFAULT_MAX_THREADS, true`)
when `instance_ == 0`, then returns `instance_`. -/
def instanceOp (g : GlobalState) : GlobalState × Option CheckpointState :=
  let g1 := if g.instance_.isNone then initializeOp g DEFAULT_MAX_THREADS true else g
  (g1, g1.instance_)

/-- `Checkpoint::getTimeResolutionStr(uint64_t&, uint64_t&)`: scales the
(average, total) pair in place and returns the unit label; modelled as
returning the `(unit, scaled average, scaled total)` triple.  The base unit
is `MICRO_SEC_STR`. -/
def getTimeResolutionStr (avgCycles totalCycles : Nat) : String × Nat × Nat :=
  if avgCycles > 99999 ∧ totalCycles > 999999 then
    ("Seconds", avgCycles / 1000000, totalCycles / 1000000)
  else if avgCycles > 9999 ∧ totalCycles > 99999 then
    ("MilliSec", avgCycles / 1000, totalCycles / 1000)
  else
    ("MicroSec", avgCycles, totalCycles)

/-- The "filter out unused threads" loop of `Checkpoint::dump`: scans all
`MAX_CHECKPOINT` slots for a nonzero iteration count. -/
def threadUsed (t : ThreadCheckpointInfo) : Bool :=
  (List.range MAX_CHECKPOINT).any fun i => (slotAt t i).iterations_ ≠ 0

/-- The "filter out unused checkpoints" countdown loop of
`Checkpoint::dump`, transcribed with `chkPoint` as fuel: the loop starts at
`chkPoint = MAX_CHECKPOINT` looking at slot `MAX_CHECKPOINT - 1`, assigns
`maxCpIndex = chkPoint` (carried in `acc`) while the slot's iterations are
zero, steps `currentCp = &checkpoints_[--chkPoint]`, and breaks at the
first nonzero slot. -/
def maxCpIndexLoop (cps : List CheckpointInfo) : Nat → Nat → Nat → Nat
  | 0, _, acc => acc
  | k + 1, curIdx, acc =>
    if (cps.getD curIdx cpZero).iterations_ = 0
    then maxCpIndexLoop cps k k (k + 1)
    else acc

/-- The trimmed slot range bound `maxCpIndex` computed by `dump` for one
thread record: only checkpoint ids below it are printed. -/
def maxCpIndex (t : ThreadCheckpointInfo) : Nat :=
  maxCpIndexLoop t.checkpoints_ MAX_CHECKPOINT (MAX_CHECKPOINT - 1) MAX_CHECKPOINT

/-- Whether `dump`'s per-thread loop lets thread record `t` contribute to
`totalCpAvg[i]` / `numCpHits[i]`: the record passes the used-thread filter,
`i` lies in the trimmed range, and `checkpoints_[i].iterations_ != 0`. -/
def contributes (t : ThreadCheckpointInfo) (i : Nat) : Bool :=
  threadUsed t && decide (i < maxCpIndex t) && (slotAt t i).iterations_ ≠ 0

/-- `numCpHits[i]` after `dump`'s per-thread loop over the records in
`threads` (registration order): the contribution tests are independent
across checkpoint ids, so the doubly nested source loop is modelled one
checkpoint id at a time. -/
def numCpHits (threads : List ThreadCheckpointInfo) (i : Nat) : Nat :=
  threads.foldl (fun n t => if contributes t i then n + 1 else n) 0

/-- `totalCpAvg[i]` after `dump`'s per-thread loop: the fold of
`totalCpAvg[checkPoint] += currentCp` over the contributing records. -/
def totalCpAvgAt (threads : List ThreadCheckpointInfo) (i : Nat) : CheckpointInfo :=
  threads.foldl
    (fun acc t => if contributes t i then acc.addAssign (slotAt t i) else acc)
    cpZero

/-- The `avgCycles` local printed for one slot in `dump`'s per-thread
section: `totalCycles_ / iterations_` computed only under the
`iterations_ != 0` guard, `0` otherwise. -/
def perThreadAvgCycles (t : ThreadCheckpointInfo) (i : Nat) : Nat :=
  if (slotAt t i).iterations_ ≠ 0
  then (slotAt t i).totalCycles_ / (slotAt t i).iterations_
  else 0

/-- The `avgCp` mutation of `dump`'s weighted-average section for
checkpoint id `i`: when `numCpHits[i] > 1`, both accumulated values are
divided by `numCpHits[i]` (`none` when the id is skipped).  The pair is
`(iterations_, totalCycles_)` after the division. -/
def weightedAvgValues (threads : List ThreadCheckpointInfo) (i : Nat) : Option (Nat × Nat) :=
  let hits := numCpHits threads i
  if hits > 1 then
    some ((totalCpAvgAt threads i).iterations_ / hits, (totalCpAvgAt threads i).totalCycles_ / hits)
  else none

/-- The full weighted-average output line for checkpoint id `i`:
iteration count, then the unit-scaled `(unit, avg, total)` triple, where
`avgCycles = avgCp->totalCycles_ / avgCp->iterations_` is computed from the
already divided values. -/
def weightedAvgLine (threads : List ThreadCheckpointInfo) (i : Nat) :
    Option (Nat × String × Nat × Nat) :=
  match weightedAvgValues threads i with
  | none => none
  | some (iters, total) => some (iters, getTimeResolutionStr (total / iters) total)

/-- Specification-side contributor count, named after the spec's words:
"a thread contributes if its slot for that id has iterations > 0". -/
def specContributorCount (threads : List ThreadCheckpointInfo) (i : Nat) : Nat :=
  (threads.filter fun t => (slotAt t i).iterations_ ≠ 0).length

/-- Specification-side accumulated iteration count over the contributing
threads. -/
def specSumIterations (threads : List ThreadCheckpointInfo) (i : Nat) : Nat :=
  ((threads.filter fun t => (slotAt t i).iterations_ ≠ 0).map
    fun t => (slotAt t i).iterations_).sum

/-- Specification-side accumulated total elapsed time over the contributing
threads. -/
def specSumTotal (threads : List ThreadCheckpointInfo) (i : Nat) : Nat :=
  ((threads.filter fun t => (slotAt t i).iterations_ ≠ 0).map
    fun t => (slotAt t i).totalCycles_).sum

/-- Reading `threadCpInfoMap_[k]` inside `dump` / `dumpThroughput`:
`std::map::operator[]` returns the existing record, or default-inserts one
(constructed with clock reading `tCreate`) when the key is absent. -/
def mapBracketRead (m : List (Nat × ThreadCheckpointInfo)) (k : Nat) (tCreate : Nat) :
    ThreadCheckpointInfo × List (Nat × ThreadCheckpointInfo) :=
  match assocLookup m k with
  | some v => (v, m)
  | none => (ThreadCheckpointInfo.construct tCreate, assocInsert m k (ThreadCheckpointInfo.construct tCreate))

/-- The map accesses of a loop `for(thread = 0; thread < count; ++thread)`
over `threadCpInfoMap_[threadIdVector_[thread]]` (used by `dump`'s
per-thread section and by `dumpThroughput`'s per-thread loop).  The
`threadIdVector_[thread]` read returns the raw reserved storage cell. -/
def dumpLoopMap (m : List (Nat × ThreadCheckpointInfo)) (storage : List Nat)
    (count : Nat) (tCreate : Nat) : List (Nat × ThreadCheckpointInfo) :=
  (List.range count).foldl (fun acc i => (mapBracketRead acc (storage.getD i 0) tCreate).2) m

/-- The map accesses of `Checkpoint::dumpThroughput`: first the
unconditional `threadCpInfoMap_[threadIdVector_[0]]` for thread zero's
record, then the per-thread loop. -/
def dumpThroughputMap (m : List (Nat × ThreadCheckpointInfo)) (storage : List Nat)
    (count : Nat) (tCreate : Nat) : List (Nat × ThreadCheckpointInfo) :=
  dumpLoopMap (mapBracketRead m (storage.getD 0 0) tCreate).2 storage count tCreate

/-- The registry-state effect of
`Checkpoint::dump(out, dumpAverages, dumpTput, dumpThreadIds)`: the
per-thread section indexes the map once per registered thread; the
weighted-average section touches only locals; the throughput section (when
requested) runs `dumpThroughput`; the thread-id table only reads the
vector.  `tCreate` models the clock readings consumed by any
default-inserted records. -/
def dumpState (s : CheckpointState) (dumpAverages dumpTput dumpThreadIds : Bool)
    (tCreate : Nat) : CheckpointState :=
  let m1 := dumpLoopMap s.threadCpInfoMap_ s.threadIdVectorStorage_ s.threadIdCounter_ tCreate
  let m2 := if dumpTput
    then dumpThroughputMap m1 s.threadIdVectorStorage_ s.threadIdCounter_ tCreate
    else m1
  { s with threadCpInfoMap_ := m2 }

/-- A registry state in which thread id `5` is already registered (as a
racing thread would leave it just before the slow path's
`pthread_rwlock_wrlock` returns): one map entry, one order-index entry. -/
def c2state : CheckpointState :=
  { threadCpInfoMap_ := [(5, ThreadCheckpointInfo.construct 50)]
    threadIdVectorStorage_ := [5, 0, 0, 0]
    threadIdVectorSize_ := 0
    threadIdCounter_ := 1
    numThreads_ := 4
    isActive_ := true }

/-- Three first-time `checkpoint(1)` calls from the distinct threads
`11`, `22`, `33`. -/
def c3calls : List Call :=
  [{ tid := 11, cp := 1, tCreate := 100, tNow := 101 },
   { tid := 22, cp := 1, tCreate := 102, tNow := 103 },
   { tid := 33, cp := 1, tCreate := 104, tNow := 105 }]

/-- A deactivated registry state with one registered thread. -/
def c5state : CheckpointState :=
  { threadCpInfoMap_ := [(9, ThreadCheckpointInfo.construct 40)]
    threadIdVectorStorage_ := [9, 0, 0]
    threadIdVectorSize_ := 0
    threadIdCounter_ := 1
    numThreads_ := 3
    isActive_ := false }

/-- Two thread records that both hit checkpoint `0` (with 2 and 3
iterations) and nothing else. -/
def c6threads : List ThreadCheckpointInfo :=
  [{ checkpoints_ :=
       { iterations_ := 2, totalCycles_ := 10, previousCycles_ := 0 } :: List.replicate 9 cpZero
     creationCycles_ := 0
     lastCheckpointHit_ := 0 },
   { checkpoints_ :=
       { iterations_ := 3, totalCycles_ := 20, previousCycles_ := 0 } :: List.replicate 9 cpZero
     creationCycles_ := 0
     lastCheckpointHit_ := 0 }]

/-- A registry state with a single normally registered thread `7`. -/
def c10state : CheckpointState :=
  { threadCpInfoMap_ := [(7, ThreadCheckpointInfo.construct 30)]
    threadIdVectorStorage_ := [7, 0, 0]
    threadIdVectorSize_ := 0
    threadIdCounter_ := 1
    numThreads_ := 3
    isActive_ := true }

/-- A singleton state after a first `initialize` call. -/
def c4global : GlobalState :=
  { instance_ := some (Checkpoint.mkState 1), useLocking_ := true }

/-- C1. The elapsed-time deltas recorded by `Checkpoint::checkpoint` do
not telescope: on a thread whose record was created at clock reading
`100`, the run `checkpoint(1)` at reading `150` followed by
`checkpoint(1)` at reading `200` accumulates a total elapsed time of `50`,
not the `200 - 100 = 100` the claim requires — the second call adds
`0` because `currentCp` and `previousCp` alias (the call's id equals
`lastCheckpointHit_`) and `currentCp->previousCycles_` is overwritten with
the new reading before the delta subtraction reads it. -/
theorem c1_repeated_checkpoint_records_zero_delta :
    sumTotalCycles (runThread (ThreadCheckpointInfo.construct 100) [(1, 150), (1, 200)]) = 50
    ∧ 200 - (ThreadCheckpointInfo.construct 100).creationCycles_ = 100 := by
  constructor
  · decide
  · decide

/-- C2. The slow path of `Checkpoint::getThreadCpInfo` does not re-check
the map under the write lock: run from a registry state in which thread
`5` is already registered (`c2state`, as left by a racing thread), the
write-locked insertion block appends `5` to the insertion-order index a
second time, bumps `threadIdCounter_` to `2`, and resets the existing map
record. -/
theorem c2_slow_path_inserts_duplicate :
    assocLookup c2state.threadCpInfoMap_ 5 ≠ none
    ∧ c2state.threadIdVectorStorage_.take c2state.threadIdCounter_ = [5]
    ∧ (slowPathInsert c2state 5 60).threadIdCounter_ = 2
    ∧ (slowPathInsert c2state 5 60).threadIdVectorStorage_.take 2 = [5, 5]
    ∧ (slowPathInsert c2state 5 60).threadCpInfoMap_ ≠ c2state.threadCpInfoMap_ := by
  refine ⟨by decide, by decide, by decide, by decide, by decide⟩

/-- C3. The thread registry's insertion-order index never grows: after
`initialize(2, ...)` (two reserved cells, vector size `0`) and first-time
checkpoint calls from the three distinct threads `11`, `22`, `33`, the
map holds three records but `threadIdVector_` still has size `0` and only
two reserved cells, so every write went past the container's end and the
third (`threadIdVector_[2]`) fell outside the reserved storage
altogether — thread `33` is recorded nowhere in the order index. -/
theorem c3_thread_registry_does_not_grow :
    (runCalls (Checkpoint.mkState 2) c3calls).threadCpInfoMap_.length = 3
    ∧ (runCalls (Checkpoint.mkState 2) c3calls).threadIdCounter_ = 3
    ∧ (runCalls (Checkpoint.mkState 2) c3calls).threadIdVectorSize_ = 0
    ∧ (runCalls (Checkpoint.mkState 2) c3calls).threadIdVectorStorage_.length = 2
    ∧ 33 ∉ (runCalls (Checkpoint.mkState 2) c3calls).threadIdVectorStorage_ := by
  refine ⟨by decide, by decide, by decide, by decide, by decide⟩

/-- C4 counterexample. A second `initialize` call does change the locking
flag already in effect: after `initialize(32, true)`, calling
`initialize(32, false)` leaves the same singleton in place but flips
`useLocking_` from `true` to `false`, refuting the claim's third
conjunct at this concrete input. -/
theorem c4_second_initialize_changes_locking_flag :
    (initializeOp (initializeOp { instance_ := none, useLocking_ := true } 32 true) 32 false).instance_
      = (initializeOp { instance_ := none, useLocking_ := true } 32 true).instance_
    ∧ (initializeOp { instance_ := none, useLocking_ := true } 32 true).useLocking_ = true
    ∧ (initializeOp (initializeOp { instance_ := none, useLocking_ := true } 32 true) 32 false).useLocking_
      ≠ (initializeOp { instance_ := none, useLocking_ := true } 32 true).useLocking_ := by
  refine ⟨by decide, by decide, by decide⟩

/-- C4 amended. A second `initialize` call never creates a second
registry and `instance()` returns the same handle before and after it,
but the call overwrites the locking flag with its `useLocking`
argument. -/
theorem c4_initialize_idempotent_amended (g : GlobalState) (n : Nat) (l : Bool)
    (c : CheckpointState) (h : g.instance_ = some c) :
    (initializeOp g n l).instance_ = some c
    ∧ (instanceOp (initializeOp g n l)).2 = some c
    ∧ (initializeOp g n l).useLocking_ = l := by
  simp [initializeOp, instanceOp, h]

/-- C4 witness: the amended theorem applied to a concrete
already-initialized singleton state. -/
theorem c4_initialize_idempotent_amended_witness :
    c4global.instance_ = some (Checkpoint.mkState 1)
    ∧ ((initializeOp c4global 8 false).instance_ = some (Checkpoint.mkState 1)
       ∧ (instanceOp (initializeOp c4global 8 false)).2 = some (Checkpoint.mkState 1)
       ∧ (initializeOp c4global 8 false).useLocking_ = false) :=
  ⟨rfl, c4_initialize_idempotent_amended c4global 8 false (Checkpoint.mkState 1) rfl⟩

/-- C5. When `isActive_` is false, `Checkpoint::checkpoint` returns
before touching anything: the whole registry state — thread map, order
index, counters, every slot — is returned unchanged. -/
theorem c5_checkpoint_inactive_noop (s : CheckpointState) (tid cp tCreate tNow : Nat)
    (h : s.isActive_ = false) :
    checkpointOp s tid cp tCreate tNow = s := by
  simp [checkpointOp, h]

/-- C5 witness: the inactive no-op theorem applied to the concrete
deactivated state `c5state`. -/
theorem c5_checkpoint_inactive_noop_witness :
    c5state.isActive_ = false ∧ checkpointOp c5state 7 3 1 2 = c5state :=
  ⟨rfl, c5_checkpoint_inactive_noop c5state 7 3 1 2 rfl⟩

/-- C8. `getTimeResolutionStr` always scales the (average, total) pair
together under one unit label: both above the seconds thresholds — both
divided by `10^6` and labelled `Seconds`; otherwise both above the
milliseconds thresholds — both divided by `10^3` and labelled `MilliSec`;
otherwise both returned unscaled in the `MicroSec` base unit, in
particular whenever only one of the two values exceeds a threshold. -/
theorem c8_unit_scaling_together (avgCycles totalCycles : Nat) :
    (getTimeResolutionStr avgCycles totalCycles
        = ("Seconds", avgCycles / 1000000, totalCycles / 1000000)
      ∧ avgCycles > 99999 ∧ totalCycles > 999999)
    ∨ (getTimeResolutionStr avgCycles totalCycles
        = ("MilliSec", avgCycles / 1000, totalCycles / 1000)
      ∧ (avgCycles > 9999 ∧ totalCycles > 99999)
      ∧ ¬(avgCycles > 99999 ∧ totalCycles > 999999))
    ∨ (getTimeResolutionStr avgCycles totalCycles
        = ("MicroSec", avgCycles, totalCycles)
      ∧ ¬(avgCycles > 99999 ∧ totalCycles > 999999)
      ∧ ¬(avgCycles > 9999 ∧ totalCycles > 99999)) := by
  unfold getTimeResolutionStr
  split_ifs with h1 h2
  · exact Or.inl ⟨rfl, h1⟩
  · exact Or.inr (Or.inl ⟨rfl, h2, h1⟩)
  · exact Or.inr (Or.inr ⟨rfl, h1, h2⟩)

lemma runCalls_cons (s : CheckpointState) (c : Call) (rest : List Call) :
    runCalls s (c :: rest) = runCalls (checkpointOp s c.tid c.cp c.tCreate c.tNow) rest := rfl

lemma checkpointOp_mkState_zero (tid cp tCreate tNow : Nat) :
    checkpointOp (Checkpoint.mkState 0) tid cp tCreate tNow =
      { threadCpInfoMap_ := [(0, checkpointUpdate (ThreadCheckpointInfo.construct tCreate) cp tNow)]
        threadIdVectorStorage_ := [0]
        threadIdVectorSize_ := 0
        threadIdCounter_ := 1
        numThreads_ := 0
        isActive_ := true } := rfl

lemma checkpointOp_single_mode_step (s : CheckpointState) (v : ThreadCheckpointInfo)
    (hN : s.numThreads_ = 0) (hA : s.isActive_ = true) (hm : s.threadCpInfoMap_ = [(0, v)])
    (tid cp tCreate tNow : Nat) :
    checkpointOp s tid cp tCreate tNow =
      { s with threadCpInfoMap_ := [(0, checkpointUpdate v cp tNow)] } := by
  simp [checkpointOp, getThreadCpInfoStep, hN, hA, hm, assocLookup, assocInsert]

lemma runCalls_single_mode (calls : List Call) :
    ∀ (s : CheckpointState) (v : ThreadCheckpointInfo),
      s.numThreads_ = 0 → s.isActive_ = true → s.threadCpInfoMap_ = [(0, v)] →
      s.threadIdCounter_ = 1 →
      ∃ w, (runCalls s calls).threadCpInfoMap_ = [(0, w)]
        ∧ (runCalls s calls).threadIdCounter_ = 1 := by
  induction calls with
  | nil =>
    intro s v h1 h2 h3 h4
    exact ⟨v, h3, h4⟩
  | cons c rest ih =>
    intro s v h1 h2 h3 h4
    rw [runCalls_cons, checkpointOp_single_mode_step s v h1 h2 h3]
    exact ih _ (checkpointUpdate v c.cp c.tNow) h1 h2 rfl h4

/-- C9. In single-threaded mode (`initialize` with `maxThreads = 0`):
any nonempty sequence of checkpoint calls, from arbitrarily many distinct
OS threads, leaves exactly one registered record, keyed by the implicit
identity `0`, with `threadIdCounter_ = 1`; and thread-record resolution
returns key `0` for every calling thread identity, never consulting the
map by `pthread_self()`. -/
theorem c9_single_thread_mode (calls : List Call) (hne : calls ≠ []) :
    ((runCalls (Checkpoint.mkState 0) calls).threadCpInfoMap_.map Prod.fst = [0]
     ∧ (runCalls (Checkpoint.mkState 0) calls).threadIdCounter_ = 1)
    ∧ ∀ (s : CheckpointState) (tid tCreate : Nat),
        s.numThreads_ = 0 → (getThreadCpInfoStep s tid tCreate).2 = 0 := by
  constructor
  · obtain ⟨c, rest, rfl⟩ := List.exists_cons_of_ne_nil hne
    rw [runCalls_cons, checkpointOp_mkState_zero]
    obtain ⟨w, hw, hc⟩ := runCalls_single_mode rest
      { threadCpInfoMap_ := [(0, checkpointUpdate (ThreadCheckpointInfo.construct c.tCreate) c.cp c.tNow)]
        threadIdVectorStorage_ := [0]
        threadIdVectorSize_ := 0
        threadIdCounter_ := 1
        numThreads_ := 0
        isActive_ := true }
      (checkpointUpdate (ThreadCheckpointInfo.construct c.tCreate) c.cp c.tNow)
      rfl rfl rfl rfl
    rw [hw, hc]
    simp
  · intro s tid tCreate h
    simp only [getThreadCpInfoStep, h, if_pos]
    split <;> rfl

/-- C9 witness: two calls from the distinct thread ids `11` and `22`
against a `maxThreads = 0` registry. -/
theorem c9_single_thread_mode_witness :
    ([({ tid := 11, cp := 1, tCreate := 3, tNow := 4 } : Call),
      { tid := 22, cp := 2, tCreate := 5, tNow := 6 }] : List Call) ≠ []
    ∧ (runCalls (Checkpoint.mkState 0)
        [{ tid := 11, cp := 1, tCreate := 3, tNow := 4 },
         { tid := 22, cp := 2, tCreate := 5, tNow := 6 }]).threadCpInfoMap_.map Prod.fst = [0] :=
  ⟨by decide,
   ((c9_single_thread_mode
      [{ tid := 11, cp := 1, tCreate := 3, tNow := 4 },
       { tid := 22, cp := 2, tCreate := 5, tNow := 6 }] (by decide)).1).1⟩

lemma mapBracketRead_present (m : List (Nat × ThreadCheckpointInfo)) (k : Nat) (tCreate : Nat)
    (h : assocLookup m k ≠ none) : (mapBracketRead m k tCreate).2 = m := by
  obtain ⟨v, hv⟩ := Option.ne_none_iff_exists'.mp h
  unfold mapBracketRead
  rw [hv]

lemma dumpLoopMap_present (storage : List Nat) (tCreate : Nat) :
    ∀ (count : Nat) (m : List (Nat × ThreadCheckpointInfo)),
      (∀ i, i < count → assocLookup m (storage.getD i 0) ≠ none) →
      dumpLoopMap m storage count tCreate = m := by
  intro count
  induction count with
  | zero => intro m _; rfl
  | succ n ih =>
    intro m h
    unfold dumpLoopMap
    rw [List.range_succ, List.foldl_append]
    have hn : (List.range n).foldl
        (fun acc i => (mapBracketRead acc (storage.getD i 0) tCreate).2) m = m :=
      ih m fun i hi => h i (Nat.lt_succ_of_lt hi)
    rw [hn]
    exact mapBracketRead_present m _ tCreate (h n (Nat.lt_succ_self n))

/-- C10 amended. `dump` leaves the registry unchanged for every flag
combination provided each of the first `threadIdCounter_` order-index
entries has a record in the thread map and, whenever the throughput flag
is set, at least one thread has registered; but on the empty-registry
edge case with the throughput flag set, `dumpThroughput` reads the
never-written order-index cell `0` and default-inserts a record for that
identity into the thread map. -/
theorem c10_dump_read_only_amended (s : CheckpointState)
    (dumpAverages dumpTput dumpThreadIds : Bool) (tCreate : Nat)
    (hreg : ∀ i, i < s.threadIdCounter_ →
      assocLookup s.threadCpInfoMap_ (s.threadIdVectorStorage_.getD i 0) ≠ none)
    (htput : dumpTput = true → 0 < s.threadIdCounter_) :
    dumpState s dumpAverages dumpTput dumpThreadIds tCreate = s := by
  unfold dumpState dumpThroughputMap
  rw [dumpLoopMap_present _ _ _ _ hreg]
  cases dumpTput with
  | false => rfl
  | true =>
    have h0 : 0 < s.threadIdCounter_ := htput rfl
    simp only [if_true]
    rw [mapBracketRead_present _ _ _ (hreg 0 h0), dumpLoopMap_present _ _ _ _ hreg]

/-- C10 witness: `dump` with every flag set is the identity on a registry
state with one normally registered thread. -/
theorem c10_dump_read_only_amended_witness :
    dumpState c10state true true true 99 = c10state :=
  c10_dump_read_only_amended c10state true true true 99
    (by
      intro i hi
      have hc : c10state.threadIdCounter_ = 1 := rfl
      rw [hc] at hi
      have hi0 : i = 0 := by omega
      subst hi0
      decide)
    (fun _ => by decide)

/-- C10 counterexample. `dump` is not read-only on the no-thread edge
case: with an empty registry and the throughput flag set,
`dumpThroughput` evaluates `threadCpInfoMap_[threadIdVector_[0]]`, reading
the never-written order-index cell and default-inserting a record for that
identity, so the thread map grows from zero entries to one. -/
theorem c10_dump_mutates_empty_registry :
    (Checkpoint.mkState 32).threadCpInfoMap_ = []
    ∧ (dumpState (Checkpoint.mkState 32) false true false 5).threadCpInfoMap_ ≠ [] := by
  refine ⟨by decide, by decide⟩

lemma addAssign_iterations (a b : CheckpointInfo) :
    (a.addAssign b).iterations_ = a.iterations_ + b.iterations_ := rfl

lemma addAssign_totalCycles (a b : CheckpointInfo) :
    (a.addAssign b).totalCycles_ = a.totalCycles_ + b.totalCycles_ := rfl

lemma lt_maxCpIndexLoop (cps : List CheckpointInfo) :
    ∀ (fuel curIdx acc i : Nat), i ≤ curIdx → curIdx ≤ fuel → curIdx + 1 ≤ acc →
      (cps.getD i cpZero).iterations_ ≠ 0 →
      i < maxCpIndexLoop cps fuel curIdx acc := by
  intro fuel
  induction fuel with
  | zero =>
    intro curIdx acc i h1 h2 h3 _
    simp only [maxCpIndexLoop]
    omega
  | succ k ih =>
    intro curIdx acc i h1 h2 h3 h4
    simp only [maxCpIndexLoop]
    by_cases hz : (cps.getD curIdx cpZero).iterations_ = 0
    · rw [if_pos hz]
      have hne : i ≠ curIdx := by
        intro he
        rw [he] at h4
        exact h4 hz
      exact ih k (k + 1) i (by omega) (by omega) (by omega) h4
    · rw [if_neg hz]
      omega

lemma threadUsed_of_slot (t : ThreadCheckpointInfo) (i : Nat) (hi : i < MAX_CHECKPOINT)
    (h : (slotAt t i).iterations_ ≠ 0) : threadUsed t = true := by
  unfold threadUsed
  rw [List.any_eq_true]
  exact ⟨i, List.mem_range.mpr hi, decide_eq_true h⟩

lemma slot_lt_maxCpIndex (t : ThreadCheckpointInfo) (i : Nat) (hi : i < MAX_CHECKPOINT)
    (h : (slotAt t i).iterations_ ≠ 0) : i < maxCpIndex t := by
  unfold maxCpIndex
  unfold slotAt at h
  exact lt_maxCpIndexLoop t.checkpoints_ MAX_CHECKPOINT (MAX_CHECKPOINT - 1) MAX_CHECKPOINT i
    (by omega) (by omega) (by omega) h

lemma contributes_eq_slot_ne_zero (t : ThreadCheckpointInfo) (i : Nat) (hi : i < MAX_CHECKPOINT) :
    contributes t i = decide ((slotAt t i).iterations_ ≠ 0) := by
  by_cases h : (slotAt t i).iterations_ = 0
  · simp [contributes, h]
  · simp [contributes, h, threadUsed_of_slot t i hi h, slot_lt_maxCpIndex t i hi h]

lemma contributes_iter_pos (t : ThreadCheckpointInfo) (i : Nat)
    (h : contributes t i = true) : 1 ≤ (slotAt t i).iterations_ := by
  unfold contributes at h
  simp only [Bool.and_eq_true, decide_eq_true_eq] at h
  omega

lemma numCpHits_go (i : Nat) (l : List ThreadCheckpointInfo) :
    ∀ n : Nat, l.foldl (fun n t => if contributes t i then n + 1 else n) n
      = n + (l.filter fun t => contributes t i).length := by
  induction l with
  | nil => intro n; simp
  | cons t rest ih =>
    intro n
    by_cases h : contributes t i = true
    · simp only [List.foldl_cons, List.filter_cons, h, if_true, List.length_cons, ih]
      omega
    · simp only [List.foldl_cons, List.filter_cons, h, if_false, Bool.false_eq_true, ih]

lemma totalCpAvgAt_go (i : Nat) (l : List ThreadCheckpointInfo) :
    ∀ acc : CheckpointInfo,
      (l.foldl (fun acc t => if contributes t i then acc.addAssign (slotAt t i) else acc)
          acc).iterations_
        = acc.iterations_
          + ((l.filter fun t => contributes t i).map fun t => (slotAt t i).iterations_).sum
      ∧ (l.foldl (fun acc t => if contributes t i then acc.addAssign (slotAt t i) else acc)
          acc).totalCycles_
        = acc.totalCycles_
          + ((l.filter fun t => contributes t i).map fun t => (slotAt t i).totalCycles_).sum := by
  induction l with
  | nil => intro acc; simp
  | cons t rest ih =>
    intro acc
    by_cases h : contributes t i = true
    · obtain ⟨ih1, ih2⟩ := ih (acc.addAssign (slotAt t i))
      simp only [List.foldl_cons, List.filter_cons, h, if_true, List.map_cons, List.sum_cons]
      rw [ih1, ih2, addAssign_iterations, addAssign_totalCycles]
      omega
    · simp only [List.foldl_cons, List.filter_cons, h, if_false, Bool.false_eq_true]
      exact ih acc

lemma numCpHits_eq_spec (threads : List ThreadCheckpointInfo) (i : Nat)
    (hi : i < MAX_CHECKPOINT) :
    numCpHits threads i = specContributorCount threads i := by
  unfold numCpHits specContributorCount
  rw [numCpHits_go, List.filter_congr fun t _ => contributes_eq_slot_ne_zero t i hi]
  omega

lemma totalCpAvgAt_eq_spec (threads : List ThreadCheckpointInfo) (i : Nat)
    (hi : i < MAX_CHECKPOINT) :
    (totalCpAvgAt threads i).iterations_ = specSumIterations threads i
    ∧ (totalCpAvgAt threads i).totalCycles_ = specSumTotal threads i := by
  have hcongr : (threads.filter fun t => contributes t i)
      = threads.filter fun t => decide ((slotAt t i).iterations_ ≠ 0) :=
    List.filter_congr fun t _ => contributes_eq_slot_ne_zero t i hi
  unfold totalCpAvgAt specSumIterations specSumTotal
  obtain ⟨h1, h2⟩ := totalCpAvgAt_go i threads cpZero
  rw [h1, h2, hcongr]
  simp [cpZero]

/-- C6. The weighted-average section of `dump` omits a checkpoint id with
at most one contributing thread (a thread contributes exactly when its
slot for that id has a nonzero iteration count), and prints an id with two
or more contributors with the accumulated `totalCycles_` and the
accumulated iteration count each divided by the number of contributing
threads. -/
theorem c6_weighted_average_skip_rule (threads : List ThreadCheckpointInfo) (i : Nat)
    (hi : i < MAX_CHECKPOINT) :
    (specContributorCount threads i ≤ 1 → weightedAvgLine threads i = none)
    ∧ (2 ≤ specContributorCount threads i →
        weightedAvgValues threads i =
          some (specSumIterations threads i / specContributorCount threads i,
                specSumTotal threads i / specContributorCount threads i)) := by
  have hh := numCpHits_eq_spec threads i hi
  obtain ⟨ht1, ht2⟩ := totalCpAvgAt_eq_spec threads i hi
  constructor
  · intro hle
    unfold weightedAvgLine weightedAvgValues
    rw [hh, if_neg (by omega)]
  · intro h2
    unfold weightedAvgValues
    rw [hh, ht1, ht2, if_pos (by omega)]

/-- C6 witness: checkpoint id `0` is hit by both records of `c6threads`
(2 and 3 iterations), so its weighted line shows `5 / 2` iterations and
`30 / 2` total cycles. -/
theorem c6_weighted_average_skip_rule_witness :
    (0 < MAX_CHECKPOINT ∧ 2 ≤ specContributorCount c6threads 0)
    ∧ weightedAvgValues c6threads 0 =
        some (specSumIterations c6threads 0 / specContributorCount c6threads 0,
              specSumTotal c6threads 0 / specContributorCount c6threads 0) :=
  ⟨⟨by decide, by decide⟩,
   (c6_weighted_average_skip_rule c6threads 0 (by decide)).2 (by decide)⟩

lemma numCpHits_le_iterations (threads : List ThreadCheckpointInfo) (i : Nat) :
    numCpHits threads i ≤ (totalCpAvgAt threads i).iterations_ := by
  unfold numCpHits totalCpAvgAt
  rw [numCpHits_go, (totalCpAvgAt_go i threads cpZero).1]
  have : (threads.filter fun t => contributes t i).length
      ≤ ((threads.filter fun t => contributes t i).map fun t => (slotAt t i).iterations_).sum := by
    induction threads with
    | nil => simp
    | cons t rest ih =>
      rw [List.filter_cons]
      by_cases h : contributes t i = true
      · rw [if_pos h]
        simp only [List.length_cons, List.map_cons, List.sum_cons]
        have := contributes_iter_pos t i h
        omega
      · rw [if_neg (by simp [h])]
        exact ih
  simp only [cpZero]
  omega

/-- C7. No division by zero occurs in `dump`'s averaging: the per-thread
average is computed only under the `iterations_ != 0` guard (it is the
guard's else-value `0` otherwise), and in the weighted-average section the
divisor of the average — the accumulated iteration count divided by the
contributing-thread count — is at least `1` whenever the section prints
(each contributing thread contributes at least one iteration). -/
theorem c7_dump_no_division_by_zero (threads : List ThreadCheckpointInfo) (i : Nat) :
    (∀ (t : ThreadCheckpointInfo) (j : Nat),
      (slotAt t j).iterations_ = 0 → perThreadAvgCycles t j = 0)
    ∧ (1 < numCpHits threads i →
        1 ≤ (totalCpAvgAt threads i).iterations_ / numCpHits threads i) := by
  constructor
  · intro t j h
    simp [perThreadAvgCycles, h]
  · intro hh
    have hle := numCpHits_le_iterations threads i
    rw [Nat.one_le_div_iff (by omega)]
    exact hle

/-- C7 witness: at checkpoint id `0` of `c6threads` the weighted divisor
`(2 + 3) / 2` is at least `1`. -/
theorem c7_dump_no_division_by_zero_witness :
    1 < numCpHits c6threads 0
    ∧ 1 ≤ (totalCpAvgAt c6threads 0).iterations_ / numCpHits c6threads 0 :=
  ⟨by decide, (c7_dump_no_division_by_zero c6threads 0).2 (by decide)⟩

end LowImpactProfiler
